import Mathlib

/-!
Shallow embedding of `src/app/Services/GitHubService.py`.

The remote HTTP world is modelled as a function `Client` from URL strings to
an optional `HttpResponse` (`none` models a transport-level failure of
`client.get`).  Python exceptions are modelled by the `Except PyError` monad;
`asyncio.gather(..., return_exceptions=True)` becomes a list of
`Except PyError _` values.  JSON documents are the inductive type `Json`.
-/

/-- JSON values, as produced by `response.json()`. -/
inductive Json where
  | null : Json
  | bool : Bool → Json
  | num : Int → Json
  | str : String → Json
  | arr : List Json → Json
  | obj : List (String × Json) → Json

/-- `isinstance(x, dict)` on a JSON value. -/
def Json.isObj : Json → Bool
  | .obj _ => true
  | _ => false

/-- Python exceptions reaching the service code: `HTTPException(status, detail)`
raised by the fetch helpers, plus the builtin exception classes the embedded
operations can raise. -/
inductive PyError where
  | httpException : Nat → String → PyError
  | transportError : PyError
  | jsonDecodeError : PyError
  | typeError : PyError
  | keyError : PyError
  | attributeError : PyError
deriving DecidableEq

/-- An HTTP response: status code, body text, and the result of parsing the
body as JSON (`none` models a `response.json()` decode failure). -/
structure HttpResponse where
  status_code : Nat
  text : String
  body : Option Json

/-- The HTTP world: what `client.get(url, headers=HEADERS)` yields for each
URL; `none` models the request itself raising a transport error. -/
abbrev Client := String → Option HttpResponse

/-- `params : Dict[str, bool]`, as an association list. -/
abbrev Params := List (String × Bool)

/-- `params.get(key, default)`. -/
def pget (params : Params) (key : String) (default : Bool) : Bool :=
  (params.lookup key).getD default

mutual
/-- Python `repr` of a JSON value (used by f-string interpolation of
non-string values). -/
def pyRepr : Json → String
  | .null => "None"
  | .bool true => "True"
  | .bool false => "False"
  | .num n => toString n
  | .str s => "\x27" ++ s ++ "\x27"
  | .arr xs => "[" ++ pyReprList xs ++ "]"
  | .obj fs => "\x7b" ++ pyReprObj fs ++ "\x7d"

def pyReprList : List Json → String
  | [] => ""
  | [x] => pyRepr x
  | x :: xs => pyRepr x ++ ", " ++ pyReprList xs

def pyReprObj : List (String × Json) → String
  | [] => ""
  | [(k, v)] => "\x27" ++ k ++ "\x27: " ++ pyRepr v
  | (k, v) :: fs => "\x27" ++ k ++ "\x27: " ++ pyRepr v ++ ", " ++ pyReprObj fs
end

/-- Python `str` of a JSON value, as used by f-string interpolation. -/
def pyStr : Json → String
  | .str s => s
  | j => pyRepr j

/-- Python truthiness of a JSON value (`if sha:`). -/
def pyTruthy : Json → Bool
  | .null => false
  | .bool b => b
  | .num n => n != 0
  | .str s => s ≠ ""
  | .arr xs => !xs.isEmpty
  | .obj fs => !fs.isEmpty

/-- Python iteration (`for x in j`, also giving `len`): lists yield their
elements, strings their characters, dicts their keys; other values raise
`TypeError`. -/
def pyIter : Json → Except PyError (List Json)
  | .arr xs => .ok xs
  | .str s => .ok (s.data.map fun c => Json.str (String.singleton c))
  | .obj fs => .ok (fs.map fun p => Json.str p.1)
  | _ => .error .typeError

/-- Python subscript `j[key]` with a string key: dict lookup (`KeyError` when
absent), `TypeError` on anything else. -/
def pySubscr (j : Json) (key : String) : Except PyError Json :=
  match j with
  | .obj fs =>
    match fs.lookup key with
    | some v => .ok v
    | none => .error .keyError
  | _ => .error .typeError

/-- Python `j.get(key)` (dict method, default `None`); `AttributeError` on a
non-dict. -/
def pyDictGet (j : Json) (key : String) : Except PyError Json :=
  match j with
  | .obj fs => .ok ((fs.lookup key).getD Json.null)
  | _ => .error .attributeError

/-- Python string equality test of `key == x` as used by `key in list`
(a `str` equals only an equal `str`). -/
def pyEqStr (key : String) : Json → Bool
  | .str t => key = t
  | _ => false

/-- Substring test `pat in s` on Python strings. -/
def strContains (s pat : String) : Bool :=
  (List.range (s.length + 1)).any fun i => pat.data.isPrefixOf (s.data.drop i)

/-- Python membership `key in j` for a string `key`: dict → key membership,
list → element equality, string → substring; `TypeError` otherwise. -/
def pyContains (j : Json) (key : String) : Except PyError Bool :=
  match j with
  | .obj fs => .ok (fs.any fun p => p.1 = key)
  | .arr xs => .ok (xs.any (pyEqStr key))
  | .str s => .ok (strContains s key)
  | _ => .error .typeError

/-- Python `int` coercion implicit in `+=`: ints add, bools add as 0/1,
anything else raises `TypeError`. -/
def pyToInt : Json → Except PyError Int
  | .num n => .ok n
  | .bool b => .ok (if b then 1 else 0)
  | _ => .error .typeError

/-- `GITHUB_API = "https://api.github.com"`. -/
def GITHUB_API : String := "https://api.github.com"

/-- URL of the organization repository listing (`get_org_repos`). -/
def org_repos_url (org : String) : String :=
  GITHUB_API ++ "/orgs/" ++ org ++ "/repos?per_page=100"

/-- URL of the per-repository commits listing (`process_repo`). -/
def commits_url (full_name username : String) : String :=
  GITHUB_API ++ "/repos/" ++ full_name ++ "/commits?author=" ++ username ++ "&per_page=100"

/-- URL of one commit's detail endpoint (`process_repo`). -/
def commit_detail_url (full_name sha : String) : String :=
  GITHUB_API ++ "/repos/" ++ full_name ++ "/commits/" ++ sha

/-- URL of the per-repository issues listing (`process_repo`). -/
def issues_url (full_name username : String) : String :=
  GITHUB_API ++ "/repos/" ++ full_name ++ "/issues?creator=" ++ username ++ "&state=all&per_page=100"

/-- URL of the per-repository pull-request listing (`process_repo`). -/
def pulls_url (full_name username : String) : String :=
  GITHUB_API ++ "/repos/" ++ full_name ++ "/pulls?state=all&creator=" ++ username ++ "&per_page=100"

/-- The DTO `GitHubContributions` (pydantic model). -/
structure GitHubContributions where
  username : String
  organization : String
  total_commits : Int
  total_issues : Int
  total_pull_requests : Int
  total_lines_added : Int
  total_lines_deleted : Int
deriving DecidableEq

/-- The per-repository `result` dict built by `process_repo`. -/
structure RepoResult where
  commits : Int
  issues : Int
  pulls : Int
  additions : Int
  deletions : Int
deriving DecidableEq

/-- `fetch_json(url)`: GET the URL; on a non-200 status raise
`HTTPException(status_code, f"GitHub API error: {response.text}")`, else
return `response.json()`. -/
def fetch_json (client : Client) (url : String) : Except PyError Json :=
  match client url with
  | none => .error .transportError
  | some response =>
    if response.status_code ≠ 200 then
      .error (.httpException response.status_code ("GitHub API error: " ++ response.text))
    else
      match response.body with
      | none => .error .jsonDecodeError
      | some j => .ok j

/-- `fetch_json_with_client(client, url)`: same check and result as
`fetch_json`, on a shared client. -/
def fetch_json_with_client (client : Client) (url : String) : Except PyError Json :=
  match client url with
  | none => .error .transportError
  | some response =>
    if response.status_code ≠ 200 then
      .error (.httpException response.status_code ("GitHub API error: " ++ response.text))
    else
      match response.body with
      | none => .error .jsonDecodeError
      | some j => .ok j

/-- `get_org_repos(org)`. -/
def get_org_repos (client : Client) (org : String) : Except PyError Json :=
  fetch_json client (org_repos_url org)

/-- `get_commit_stats(client, url)`: `try: return response.json().get("stats", {})
except: return {}` — every failure (transport, JSON decode, `.get` on a
non-dict) is caught and yields the empty dict. -/
def get_commit_stats (client : Client) (url : String) : Json :=
  match client url with
  | none => Json.obj []
  | some response =>
    match response.body with
    | none => Json.obj []
    | some j =>
      match j with
      | .obj fs => (fs.lookup "stats").getD (Json.obj [])
      | _ => Json.obj []

/-- The commit-detail URLs built in `process_repo`: for each commit,
`sha = commit.get("sha")`, and when `sha` is truthy the detail URL is queued. -/
def commitShaUrls (full_name : String) (commits : List Json) : Except PyError (List String) :=
  commits.foldlM (fun acc commit => do
    let sha ← pyDictGet commit "sha"
    pure (if pyTruthy sha then acc ++ [commit_detail_url full_name (pyStr sha)] else acc)) []

/-- One step of the stats summation in `process_repo`:
`if isinstance(stats, dict): result['additions'] += stats.get("additions", 0); ...`. -/
def addStats (acc : Int × Int) (stats : Json) : Except PyError (Int × Int) :=
  if stats.isObj then
    match stats with
    | .obj fs => do
      let a ← pyToInt ((fs.lookup "additions").getD (Json.num 0))
      let d ← pyToInt ((fs.lookup "deletions").getD (Json.num 0))
      pure (acc.1 + a, acc.2 + d)
    | _ => pure acc
  else pure acc

/-- The fold of `addStats` over all gathered commit-stat results. -/
def sumStats (statsList : List Json) : Except PyError (Int × Int) :=
  statsList.foldlM addStats (0, 0)

/-- The issues count of `process_repo`:
`sum(1 for issue in issues if 'pull_request' not in issue)`. -/
def countNonPR (issues : List Json) : Except PyError Int :=
  issues.foldlM (fun acc issue => do
    let b ← pyContains issue "pull_request"
    pure (if b then acc else acc + 1)) 0

/-- `process_repo(client, full_name, username, params)`: three branches gated
by `params.get(key, True)`; commits branch also sums per-commit diff stats. -/
def process_repo (client : Client) (full_name username : String) (params : Params) :
    Except PyError RepoResult :=
  (if pget params "commits" true then
    fetch_json_with_client client (commits_url full_name username) >>= fun commitsJson =>
    pyIter commitsJson >>= fun commits =>
    commitShaUrls full_name commits >>= fun urls =>
    sumStats (urls.map (get_commit_stats client)) >>= fun ad =>
    pure ((commits.length : Int), ad.1, ad.2)
  else pure ((0 : Int), (0 : Int), (0 : Int))) >>= fun commitsPart =>
  (if pget params "issues" true then
    fetch_json_with_client client (issues_url full_name username) >>= fun issuesJson =>
    pyIter issuesJson >>= fun issues =>
    countNonPR issues
  else pure (0 : Int)) >>= fun issuesCount =>
  (if pget params "pulls" true then
    fetch_json_with_client client (pulls_url full_name username) >>= fun pullsJson =>
    pyIter pullsJson >>= fun pulls =>
    pure ((pulls.length : Int))
  else pure (0 : Int)) >>= fun pullsCount =>
  pure ⟨commitsPart.1, issuesCount, pullsCount, commitsPart.2.1, commitsPart.2.2⟩

/-- The full names `f"{org}/{repo['name']}"` built in the dispatch loop of
`count_user_contributions`; `repo['name']` may raise, which aborts the whole
call (the loop runs before the gather barrier). -/
def repoFullNames (org : String) (repos : List Json) : Except PyError (List String) :=
  repos.mapM (fun repo => do
    let repo_name ← pySubscr repo "name"
    pure (org ++ "/" ++ pyStr repo_name))

/-- The list produced by `asyncio.gather(*repo_tasks, return_exceptions=True)`:
one `Except` per repository, in dispatch order. -/
def gatheredResults (client : Client) (username org : String) (params : Params) :
    Except PyError (List (Except PyError RepoResult)) :=
  get_org_repos client org >>= fun reposJson =>
  pyIter reposJson >>= fun repos =>
  repoFullNames org repos >>= fun fullNames =>
  pure (fullNames.map fun full_name => process_repo client full_name username params)

/-- The accumulation loop of `count_user_contributions`: results that are
exceptions are skipped, the rest are summed field-wise into the running
totals (which start at zero). -/
def accumulate (acc : RepoResult) (r : Except PyError RepoResult) : RepoResult :=
  match r with
  | .ok v => ⟨acc.commits + v.commits, acc.issues + v.issues, acc.pulls + v.pulls,
              acc.additions + v.additions, acc.deletions + v.deletions⟩
  | .error _ => acc

/-- The whole accumulation loop, over the gathered list. -/
def sumOk (results : List (Except PyError RepoResult)) : RepoResult :=
  results.foldl accumulate ⟨0, 0, 0, 0, 0⟩

/-- `count_user_contributions(username, org, params)`. -/
def count_user_contributions (client : Client) (username org : String) (params : Params) :
    Except PyError GitHubContributions :=
  gatheredResults client username org params >>= fun results =>
  let totals := sumOk results
  pure ⟨username, org, totals.commits, totals.issues, totals.pulls,
        totals.additions, totals.deletions⟩

/-! ## General lemmas about the embedding -/

/-- Decompose a successful bind in the `Except PyError` monad. -/
theorem bindOk {α β : Type} {x : Except PyError α} {f : α → Except PyError β} {b : β}
    (h : (x >>= f) = .ok b) : ∃ a, x = .ok a ∧ f a = .ok b := by
  cases x with
  | ok a => exact ⟨a, rfl, h⟩
  | error e => exact absurd h (by simp [Bind.bind, Except.bind])

/-- The successful per-repository results, in gather order. -/
def okResults (results : List (Except PyError RepoResult)) : List RepoResult :=
  results.filterMap Except.toOption

theorem foldl_accumulate (results : List (Except PyError RepoResult)) (acc : RepoResult) :
    results.foldl accumulate acc =
      ⟨acc.commits + ((okResults results).map RepoResult.commits).sum,
       acc.issues + ((okResults results).map RepoResult.issues).sum,
       acc.pulls + ((okResults results).map RepoResult.pulls).sum,
       acc.additions + ((okResults results).map RepoResult.additions).sum,
       acc.deletions + ((okResults results).map RepoResult.deletions).sum⟩ := by
  induction results generalizing acc with
  | nil => simp [okResults]
  | cons r rs ih =>
    cases r with
    | ok v =>
      simp only [List.foldl_cons, accumulate, ih, okResults, List.filterMap_cons,
        Except.toOption, List.map_cons, List.sum_cons]
      congr 1 <;> rw [add_assoc]
    | error e =>
      simp only [List.foldl_cons, accumulate, ih, okResults, List.filterMap_cons,
        Except.toOption]

theorem sumOk_eq (results : List (Except PyError RepoResult)) :
    sumOk results =
      ⟨((okResults results).map RepoResult.commits).sum,
       ((okResults results).map RepoResult.issues).sum,
       ((okResults results).map RepoResult.pulls).sum,
       ((okResults results).map RepoResult.additions).sum,
       ((okResults results).map RepoResult.deletions).sum⟩ := by
  simp [sumOk, foldl_accumulate]

theorem sumOk_perm {results results2 : List (Except PyError RepoResult)}
    (h : results.Perm results2) : sumOk results = sumOk results2 := by
  have h2 : (okResults results).Perm (okResults results2) := h.filterMap Except.toOption
  rw [sumOk_eq, sumOk_eq, ((h2.map RepoResult.commits).sum_eq),
    ((h2.map RepoResult.issues).sum_eq), ((h2.map RepoResult.pulls).sum_eq),
    ((h2.map RepoResult.additions).sum_eq), ((h2.map RepoResult.deletions).sum_eq)]

theorem count_eq_of_gathered (client : Client) (username org : String) (params : Params)
    (results : List (Except PyError RepoResult))
    (hg : gatheredResults client username org params = .ok results) :
    count_user_contributions client username org params =
      .ok ⟨username, org, (sumOk results).commits, (sumOk results).issues,
           (sumOk results).pulls, (sumOk results).additions, (sumOk results).deletions⟩ := by
  unfold count_user_contributions
  rw [hg]
  rfl

/-! ## C1 -/

/-- C1: every `total_*` field of the report returned by
`count_user_contributions` equals the field-wise sum of the corresponding
fields over exactly the per-repository partial results whose aggregation did
not fail; the fold is invariant under permutation of the gathered results;
and when the repository list is empty every total is `0`. -/
theorem c1_totals_are_fieldwise_sums (client : Client) (username org : String)
    (params : Params) (results : List (Except PyError RepoResult))
    (report : GitHubContributions)
    (hg : gatheredResults client username org params = .ok results)
    (h : count_user_contributions client username org params = .ok report) :
    report.total_commits = ((okResults results).map RepoResult.commits).sum ∧
    report.total_issues = ((okResults results).map RepoResult.issues).sum ∧
    report.total_pull_requests = ((okResults results).map RepoResult.pulls).sum ∧
    report.total_lines_added = ((okResults results).map RepoResult.additions).sum ∧
    report.total_lines_deleted = ((okResults results).map RepoResult.deletions).sum ∧
    (∀ results2, results.Perm results2 → sumOk results = sumOk results2) ∧
    (results = [] → report = ⟨username, org, 0, 0, 0, 0, 0⟩) := by
  have hc := count_eq_of_gathered client username org params results hg
  rw [h] at hc
  have hrep := Except.ok.inj hc
  subst hrep
  refine ⟨?_, ?_, ?_, ?_, ?_, fun results2 hp => sumOk_perm hp, fun he => ?_⟩
  · rw [sumOk_eq]
  · rw [sumOk_eq]
  · rw [sumOk_eq]
  · rw [sumOk_eq]
  · rw [sumOk_eq]
  · subst he
    rfl

/-- Client used to witness C1: the organization listing returns an empty
repository array. -/
def clientC1 : Client := fun _ => some ⟨200, "", some (Json.arr [])⟩

/-- C1 at a concrete run: an organization with zero repositories yields a
report whose totals are all `0`. -/
theorem c1_totals_are_fieldwise_sums_witness :
    (⟨"alice", "Dijkstra-Edu", 0, 0, 0, 0, 0⟩ : GitHubContributions).total_commits =
      ((okResults []).map RepoResult.commits).sum ∧
    (⟨"alice", "Dijkstra-Edu", 0, 0, 0, 0, 0⟩ : GitHubContributions).total_issues =
      ((okResults []).map RepoResult.issues).sum ∧
    (⟨"alice", "Dijkstra-Edu", 0, 0, 0, 0, 0⟩ : GitHubContributions).total_pull_requests =
      ((okResults []).map RepoResult.pulls).sum ∧
    (⟨"alice", "Dijkstra-Edu", 0, 0, 0, 0, 0⟩ : GitHubContributions).total_lines_added =
      ((okResults []).map RepoResult.additions).sum ∧
    (⟨"alice", "Dijkstra-Edu", 0, 0, 0, 0, 0⟩ : GitHubContributions).total_lines_deleted =
      ((okResults []).map RepoResult.deletions).sum ∧
    (∀ results2, List.Perm [] results2 → sumOk [] = sumOk results2) ∧
    (([] : List (Except PyError RepoResult)) = [] →
      (⟨"alice", "Dijkstra-Edu", 0, 0, 0, 0, 0⟩ : GitHubContributions) =
        ⟨"alice", "Dijkstra-Edu", 0, 0, 0, 0, 0⟩) :=
  c1_totals_are_fieldwise_sums clientC1 "alice" "Dijkstra-Edu" [] []
    ⟨"alice", "Dijkstra-Edu", 0, 0, 0, 0, 0⟩ rfl rfl

/-! ## C7 -/

/-- C7: when the top-level organization repository-list fetch fails, the
whole aggregation fails: `count_user_contributions` propagates that very
error and produces no report. -/
theorem c7_org_list_failure_propagates (client : Client) (username org : String)
    (params : Params) (e : PyError)
    (h : get_org_repos client org = .error e) :
    count_user_contributions client username org params = .error e := by
  unfold count_user_contributions gatheredResults
  rw [h]
  rfl

/-- Client used to witness C7: every request yields HTTP 500. -/
def clientC7 : Client := fun _ => some ⟨500, "server down", some Json.null⟩

/-- C7 at a concrete run: a 500 on the repository listing aborts the call
with that upstream error. -/
theorem c7_org_list_failure_propagates_witness :
    count_user_contributions clientC7 "alice" "Dijkstra-Edu" [] =
      .error (.httpException 500 "GitHub API error: server down") :=
  c7_org_list_failure_propagates clientC7 "alice" "Dijkstra-Edu" []
    (.httpException 500 "GitHub API error: server down") rfl

/-! ## C2 -/

/-- Client exhibiting the C2 counterexample: every response has status 204,
a 2xx status that is not 200. -/
def clientC2 : Client := fun _ => some ⟨204, "No Content", some Json.null⟩

/-- C2 counterexample: a 204 response is in the 2xx range, yet `fetch_json`
fails with the upstream error — the code tests `status_code != 200`, not
membership in 2xx. -/
theorem c2_counterexample_204_fails :
    (200 ≤ 204 ∧ 204 < 300) ∧
    fetch_json clientC2 "https://api.github.com/orgs/Dijkstra-Edu/repos?per_page=100" =
      .error (.httpException 204 "GitHub API error: No Content") :=
  ⟨by decide, rfl⟩

/-- C2 amended: `fetch_json` (and `fetch_json_with_client`, which behaves
identically) fails with an `HTTPException` carrying the status code and the
response body exactly when the status is not 200; a status-200 response with
a parseable body is returned as its parsed JSON. -/
theorem c2_amended_fetch_fails_iff_not_200 (client : Client) (url : String)
    (resp : HttpResponse) (j : Json)
    (hresp : client url = some resp) (hbody : resp.body = some j) :
    ((∃ s d, fetch_json client url = .error (PyError.httpException s d)) ↔
      resp.status_code ≠ 200) ∧
    (resp.status_code ≠ 200 →
      fetch_json client url =
        .error (.httpException resp.status_code ("GitHub API error: " ++ resp.text))) ∧
    (resp.status_code = 200 → fetch_json client url = .ok j) ∧
    fetch_json_with_client client url = fetch_json client url := by
  have hfc : fetch_json_with_client client url = fetch_json client url := by
    unfold fetch_json fetch_json_with_client
    rfl
  have hfj : fetch_json client url =
      if resp.status_code ≠ 200 then
        .error (.httpException resp.status_code ("GitHub API error: " ++ resp.text))
      else .ok j := by
    unfold fetch_json
    rw [hresp]
    by_cases hs : resp.status_code = 200 <;> simp [hs, hbody]
  refine ⟨⟨fun ⟨s, d, hsd⟩ hs200 => ?_, fun hs200 => ?_⟩, fun hs200 => ?_, fun hs200 => ?_, hfc⟩
  · rw [hfj] at hsd
    simp [hs200] at hsd
  · rw [hfj, if_pos hs200]
    exact ⟨resp.status_code, "GitHub API error: " ++ resp.text, rfl⟩
  · rw [hfj]
    simp [hs200]
  · rw [hfj]
    simp [hs200]

/-- Client used to witness the amended C2: every response is a 404. -/
def clientC2b : Client := fun _ => some ⟨404, "Not Found", some Json.null⟩

/-- Amended C2 at a concrete run: a 404 yields the upstream error with the
status and body, and the two fetch helpers agree. -/
theorem c2_amended_fetch_fails_iff_not_200_witness :
    fetch_json clientC2b "https://api.github.com/x" =
      .error (.httpException 404 "GitHub API error: Not Found") ∧
    fetch_json_with_client clientC2b "https://api.github.com/x" =
      fetch_json clientC2b "https://api.github.com/x" := by
  obtain ⟨-, hB, -, hD⟩ := c2_amended_fetch_fails_iff_not_200 clientC2b
    "https://api.github.com/x" ⟨404, "Not Found", some Json.null⟩ Json.null rfl rfl
  exact ⟨hB (by decide), hD⟩

/-! ## C10 -/

/-- Client exhibiting the C10 counterexample: the commit-detail body maps
`stats` to the number `5`. -/
def clientC10 : Client :=
  fun _ => some ⟨200, "", some (Json.obj [("stats", Json.num 5)])⟩

/-- C10 counterexample: on a body whose `stats` field is not a dict,
`get_commit_stats` returns that non-dict value — so it does not return a
dictionary for every response (which is why `process_repo` re-checks
`isinstance(stats, dict)`). -/
theorem c10_counterexample_nondict_stats :
    get_commit_stats clientC10 "https://api.github.com/repos/Dijkstra-Edu/r/commits/abc" =
      Json.num 5 ∧
    (get_commit_stats clientC10
      "https://api.github.com/repos/Dijkstra-Edu/r/commits/abc").isObj = false :=
  ⟨rfl, rfl⟩

/-- C10 amended: `get_commit_stats` is total over responses — it never
fails, ignores the HTTP status, and returns the body's `stats` value when
the body is a dict carrying one (that value need not itself be a dict);
in every other case (transport failure, unparseable body, non-dict body,
`stats` absent) it returns the empty dict. -/
theorem c10_amended_get_commit_stats_total (client : Client) (url : String) :
    (client url = none → get_commit_stats client url = Json.obj []) ∧
    (∀ resp, client url = some resp → resp.body = none →
      get_commit_stats client url = Json.obj []) ∧
    (∀ resp j, client url = some resp → resp.body = some j → j.isObj = false →
      get_commit_stats client url = Json.obj []) ∧
    (∀ resp fs, client url = some resp → resp.body = some (Json.obj fs) →
      fs.lookup "stats" = none → get_commit_stats client url = Json.obj []) ∧
    (∀ resp fs v, client url = some resp → resp.body = some (Json.obj fs) →
      fs.lookup "stats" = some v → get_commit_stats client url = v) := by
  refine ⟨fun h => ?_, fun resp h hb => ?_, fun resp j h hb hobj => ?_,
    fun resp fs h hb hl => ?_, fun resp fs v h hb hl => ?_⟩
  · simp [get_commit_stats, h]
  · simp [get_commit_stats, h, hb]
  · cases j <;> simp_all [get_commit_stats, Json.isObj]
  · simp [get_commit_stats, h, hb, hl]
  · simp [get_commit_stats, h, hb, hl]

/-- Client used to witness the amended C10: a 500 response whose error body
has no `stats` field. -/
def clientC10b : Client :=
  fun _ => some ⟨500, "Internal Error", some (Json.obj [("message", Json.str "bad")])⟩

/-- Amended C10 at a concrete run: a non-success response without a `stats`
field yields the empty dict, with no error. -/
theorem c10_amended_get_commit_stats_total_witness :
    get_commit_stats clientC10b "https://api.github.com/repos/Dijkstra-Edu/r/commits/abc" =
      Json.obj [] :=
  (c10_amended_get_commit_stats_total clientC10b
      "https://api.github.com/repos/Dijkstra-Edu/r/commits/abc").2.2.2.1
    ⟨500, "Internal Error", some (Json.obj [("message", Json.str "bad")])⟩
    [("message", Json.str "bad")] rfl rfl rfl

/-! ## C3 -/

/-- C3: when the gathered per-repository results are a success `rA`, a
failure and a success `rC`, the call still returns a report, and its totals
are exactly the field-wise sums of `rA` and `rC` — the failing repository is
absorbed at the fan-in barrier and contributes zero everywhere. -/
theorem c3_repo_failure_absorbed (client : Client) (username org : String)
    (params : Params) (results : List (Except PyError RepoResult))
    (rA rC : RepoResult) (eB : PyError)
    (hg : gatheredResults client username org params = .ok results)
    (hres : results = [.ok rA, .error eB, .ok rC]) :
    ∃ report, count_user_contributions client username org params = .ok report ∧
      report.total_commits = rA.commits + rC.commits ∧
      report.total_issues = rA.issues + rC.issues ∧
      report.total_pull_requests = rA.pulls + rC.pulls ∧
      report.total_lines_added = rA.additions + rC.additions ∧
      report.total_lines_deleted = rA.deletions + rC.deletions := by
  subst hres
  refine ⟨_, count_eq_of_gathered client username org params _ hg, ?_, ?_, ?_, ?_, ?_⟩ <;>
    simp [sumOk, accumulate, List.foldl_cons, List.foldl_nil]

/-- Feature selection used to witness C3: only the pulls branch enabled. -/
def paramsC3 : Params := [("commits", false), ("issues", false)]

/-- Client used to witness C3: three repositories; the pulls listing
succeeds for `a` (2 items) and `c` (1 item) and is a 500 for `b`. -/
def clientC3 : Client := fun url =>
  if url = org_repos_url "OrgX" then
    some ⟨200, "", some (Json.arr [Json.obj [("name", Json.str "a")],
      Json.obj [("name", Json.str "b")], Json.obj [("name", Json.str "c")]])⟩
  else if url = pulls_url "OrgX/a" "alice" then
    some ⟨200, "", some (Json.arr [Json.null, Json.null])⟩
  else if url = pulls_url "OrgX/b" "alice" then
    some ⟨500, "boom", some Json.null⟩
  else if url = pulls_url "OrgX/c" "alice" then
    some ⟨200, "", some (Json.arr [Json.null])⟩
  else none

/-- C3 at a concrete run: repository `b` fails with a 500, yet the call
returns a report whose pulls total is `a`'s 2 plus `c`'s 1. -/
theorem c3_repo_failure_absorbed_witness :
    ∃ report, count_user_contributions clientC3 "alice" "OrgX" paramsC3 =
        Except.ok report ∧
      report.total_pull_requests = 3 := by
  obtain ⟨report, hok, -, -, hp, -, -⟩ :=
    c3_repo_failure_absorbed clientC3 "alice" "OrgX" paramsC3
      [.ok ⟨0, 0, 2, 0, 0⟩, .error (.httpException 500 "GitHub API error: boom"),
        .ok ⟨0, 0, 1, 0, 0⟩]
      ⟨0, 0, 2, 0, 0⟩ ⟨0, 0, 1, 0, 0⟩ (.httpException 500 "GitHub API error: boom") rfl rfl
  exact ⟨report, hok, by rw [hp]; rfl⟩

/-! ## Branch lemmas about `process_repo` -/

theorem process_repo_commits_false (client : Client) (full_name username : String)
    (params : Params) (r : RepoResult)
    (hc : pget params "commits" true = false)
    (h : process_repo client full_name username params = .ok r) :
    r.commits = 0 ∧ r.additions = 0 ∧ r.deletions = 0 := by
  unfold process_repo at h
  rw [hc] at h
  simp only [Bool.false_eq_true, if_false, pure_bind] at h
  obtain ⟨i, hi, h2⟩ := bindOk h
  obtain ⟨p, hp, h3⟩ := bindOk h2
  have hr : Except.ok (⟨0, i, p, 0, 0⟩ : RepoResult) = Except.ok r := h3
  rw [← Except.ok.inj hr]
  exact ⟨rfl, rfl, rfl⟩

theorem process_repo_issues_false (client : Client) (full_name username : String)
    (params : Params) (r : RepoResult)
    (hc : pget params "issues" true = false)
    (h : process_repo client full_name username params = .ok r) :
    r.issues = 0 := by
  unfold process_repo at h
  rw [hc] at h
  simp only [Bool.false_eq_true, if_false, pure_bind] at h
  obtain ⟨c, hcB, h2⟩ := bindOk h
  obtain ⟨p, hp, h3⟩ := bindOk h2
  have hr : Except.ok (⟨c.1, 0, p, c.2.1, c.2.2⟩ : RepoResult) = Except.ok r := h3
  rw [← Except.ok.inj hr]

theorem process_repo_pulls_false (client : Client) (full_name username : String)
    (params : Params) (r : RepoResult)
    (hc : pget params "pulls" true = false)
    (h : process_repo client full_name username params = .ok r) :
    r.pulls = 0 := by
  unfold process_repo at h
  rw [hc] at h
  simp only [Bool.false_eq_true, if_false, pure_bind] at h
  obtain ⟨c, hcB, h2⟩ := bindOk h
  obtain ⟨i, hi, h3⟩ := bindOk h2
  have hr : Except.ok (⟨c.1, i, 0, c.2.1, c.2.2⟩ : RepoResult) = Except.ok r := h3
  rw [← Except.ok.inj hr]

theorem count_ok_inv (client : Client) (username org : String) (params : Params)
    (report : GitHubContributions)
    (h : count_user_contributions client username org params = .ok report) :
    ∃ results, gatheredResults client username org params = .ok results ∧
      report = ⟨username, org, (sumOk results).commits, (sumOk results).issues,
                (sumOk results).pulls, (sumOk results).additions, (sumOk results).deletions⟩ := by
  unfold count_user_contributions at h
  obtain ⟨results, hg, h2⟩ := bindOk h
  have hr : Except.ok (⟨username, org, (sumOk results).commits, (sumOk results).issues,
      (sumOk results).pulls, (sumOk results).additions,
      (sumOk results).deletions⟩ : GitHubContributions) = Except.ok report := h2
  exact ⟨results, hg, (Except.ok.inj hr).symm⟩

theorem mem_gathered_is_process (client : Client) (username org : String) (params : Params)
    (results : List (Except PyError RepoResult))
    (hg : gatheredResults client username org params = .ok results) :
    ∀ res ∈ results, ∃ full_name, res = process_repo client full_name username params := by
  unfold gatheredResults at hg
  obtain ⟨reposJson, h1, h2⟩ := bindOk hg
  obtain ⟨repos, h3, h4⟩ := bindOk h2
  obtain ⟨fullNames, h5, h6⟩ := bindOk h4
  have hr : Except.ok (fullNames.map fun full_name =>
      process_repo client full_name username params) = Except.ok results := h6
  intro res hres
  rw [← Except.ok.inj hr] at hres
  obtain ⟨fn, -, hfn⟩ := List.mem_map.mp hres
  exact ⟨fn, hfn.symm⟩

theorem mem_okResults_process (client : Client) (username org : String) (params : Params)
    (results : List (Except PyError RepoResult))
    (hg : gatheredResults client username org params = .ok results) :
    ∀ v ∈ okResults results, ∃ full_name,
      process_repo client full_name username params = .ok v := by
  intro v hv
  obtain ⟨res, hres, htop⟩ := List.mem_filterMap.mp hv
  obtain ⟨fn, hfn⟩ := mem_gathered_is_process client username org params results hg res hres
  cases res with
  | ok w =>
    obtain rfl : w = v := by simpa [Except.toOption] using htop
    exact ⟨fn, hfn.symm⟩
  | error e => simp [Except.toOption] at htop

/-! ## C4 -/

/-- C4: when a category flag is explicitly `false`, the corresponding total
in the returned report is exactly `0`, because that branch of `process_repo`
performs no fetch and leaves its counter at zero. -/
theorem c4_disabled_flag_zeroes_total (client : Client) (username org : String)
    (params : Params) (report : GitHubContributions)
    (h : count_user_contributions client username org params = .ok report) :
    (pget params "commits" true = false → report.total_commits = 0) ∧
    (pget params "issues" true = false → report.total_issues = 0) ∧
    (pget params "pulls" true = false → report.total_pull_requests = 0) := by
  obtain ⟨results, hg, hrep⟩ := count_ok_inv client username org params report h
  subst hrep
  have hmem := mem_okResults_process client username org params results hg
  refine ⟨fun hf => ?_, fun hf => ?_, fun hf => ?_⟩
  · show (sumOk results).commits = 0
    rw [sumOk_eq]
    apply List.sum_eq_zero
    intro x hx
    obtain ⟨v, hv, rfl⟩ := List.mem_map.mp hx
    obtain ⟨fn, hfn⟩ := hmem v hv
    exact (process_repo_commits_false client fn username params v hf hfn).1
  · show (sumOk results).issues = 0
    rw [sumOk_eq]
    apply List.sum_eq_zero
    intro x hx
    obtain ⟨v, hv, rfl⟩ := List.mem_map.mp hx
    obtain ⟨fn, hfn⟩ := hmem v hv
    exact process_repo_issues_false client fn username params v hf hfn
  · show (sumOk results).pulls = 0
    rw [sumOk_eq]
    apply List.sum_eq_zero
    intro x hx
    obtain ⟨v, hv, rfl⟩ := List.mem_map.mp hx
    obtain ⟨fn, hfn⟩ := hmem v hv
    exact process_repo_pulls_false client fn username params v hf hfn

/-- Feature selection used to witness C4: every category disabled. -/
def paramsC4 : Params := [("commits", false), ("issues", false), ("pulls", false)]

/-- Client used to witness C4: one repository; no branch endpoint is ever
requested. -/
def clientC4 : Client := fun url =>
  if url = org_repos_url "OrgY" then
    some ⟨200, "", some (Json.arr [Json.obj [("name", Json.str "r")]])⟩
  else none

/-- C4 at a concrete run: with all three flags `false`, all three counts of
the report are `0`. -/
theorem c4_disabled_flag_zeroes_total_witness :
    (⟨"bob", "OrgY", 0, 0, 0, 0, 0⟩ : GitHubContributions).total_commits = 0 ∧
    (⟨"bob", "OrgY", 0, 0, 0, 0, 0⟩ : GitHubContributions).total_issues = 0 ∧
    (⟨"bob", "OrgY", 0, 0, 0, 0, 0⟩ : GitHubContributions).total_pull_requests = 0 := by
  obtain ⟨h1, h2, h3⟩ := c4_disabled_flag_zeroes_total clientC4 "bob" "OrgY" paramsC4
    ⟨"bob", "OrgY", 0, 0, 0, 0, 0⟩ rfl
  exact ⟨h1 rfl, h2 rfl, h3 rfl⟩

/-! ## C8 -/

/-- C8: with `commits` set to `false`, both line totals of the report are
`0` — per-commit diff statistics are only fetched inside the commits branch
and no separate flag controls them. -/
theorem c8_commits_false_zeroes_lines (client : Client) (username org : String)
    (params : Params) (report : GitHubContributions)
    (h : count_user_contributions client username org params = .ok report)
    (hf : pget params "commits" true = false) :
    report.total_lines_added = 0 ∧ report.total_lines_deleted = 0 := by
  obtain ⟨results, hg, hrep⟩ := count_ok_inv client username org params report h
  subst hrep
  have hmem := mem_okResults_process client username org params results hg
  constructor
  · show (sumOk results).additions = 0
    rw [sumOk_eq]
    apply List.sum_eq_zero
    intro x hx
    obtain ⟨v, hv, rfl⟩ := List.mem_map.mp hx
    obtain ⟨fn, hfn⟩ := hmem v hv
    exact (process_repo_commits_false client fn username params v hf hfn).2.1
  · show (sumOk results).deletions = 0
    rw [sumOk_eq]
    apply List.sum_eq_zero
    intro x hx
    obtain ⟨v, hv, rfl⟩ := List.mem_map.mp hx
    obtain ⟨fn, hfn⟩ := hmem v hv
    exact (process_repo_commits_false client fn username params v hf hfn).2.2

/-- Feature selection used to witness C8: only `commits` disabled. -/
def paramsC8 : Params := [("commits", false)]

/-- Client used to witness C8: one repository with one non-PR issue and one
pull request; the commits endpoint is never requested. -/
def clientC8 : Client := fun url =>
  if url = org_repos_url "OrgZ" then
    some ⟨200, "", some (Json.arr [Json.obj [("name", Json.str "r")]])⟩
  else if url = issues_url "OrgZ/r" "bob" then
    some ⟨200, "", some (Json.arr [Json.obj []])⟩
  else if url = pulls_url "OrgZ/r" "bob" then
    some ⟨200, "", some (Json.arr [Json.null])⟩
  else none

/-- C8 at a concrete run: issues and pulls are counted while both line
totals stay `0`. -/
theorem c8_commits_false_zeroes_lines_witness :
    (⟨"bob", "OrgZ", 0, 1, 1, 0, 0⟩ : GitHubContributions).total_lines_added = 0 ∧
    (⟨"bob", "OrgZ", 0, 1, 1, 0, 0⟩ : GitHubContributions).total_lines_deleted = 0 :=
  c8_commits_false_zeroes_lines clientC8 "bob" "OrgZ" paramsC8
    ⟨"bob", "OrgZ", 0, 1, 1, 0, 0⟩ rfl rfl

/-! ## C5 -/

/-- Statement-side predicate: the item does not carry a `pull_request`
marker (Python `'pull_request' not in issue`, `false` where `in` would
raise). -/
def notPRB (item : Json) : Bool :=
  match pyContains item "pull_request" with
  | .ok b => !b
  | .error _ => false

theorem countNonPR_from (items : List Json) :
    ∀ (acc n : Int),
      items.foldlM (fun acc issue =>
        pyContains issue "pull_request" >>= fun b =>
        pure (if b then acc else acc + 1)) acc = .ok n →
      n = acc + (items.countP notPRB : Int) := by
  induction items with
  | nil =>
    intro acc n h
    have hn : Except.ok acc = Except.ok n := h
    simp [← Except.ok.inj hn]
  | cons it its ih =>
    intro acc n h
    rw [List.foldlM_cons] at h
    obtain ⟨a2, hstep, hrest⟩ := bindOk h
    cases hb : pyContains it "pull_request" with
    | error e =>
      rw [hb] at hstep
      exact absurd hstep (by simp [Bind.bind, Except.bind])
    | ok b =>
      rw [hb] at hstep
      have ha2 : Except.ok (if b then acc else acc + 1) = Except.ok a2 := hstep
      rw [← Except.ok.inj ha2] at hrest
      have hcount := ih _ n hrest
      have hnot : notPRB it = !b := by simp [notPRB, hb]
      cases b with
      | true => simp [hcount, List.countP_cons, hnot]
      | false =>
        simp only [hcount, List.countP_cons, hnot, Bool.not_false, if_true, if_false,
          Bool.false_eq_true]
        push_cast
        ring

/-- C5: when the issues endpoint answers with a list of items, the issues
count of the per-repository result equals the number of items that do NOT
carry a `pull_request` marker. -/
theorem c5_issues_count_excludes_pr_marked (client : Client) (full_name username : String)
    (params : Params) (r : RepoResult) (resp : HttpResponse) (items : List Json)
    (hresp : client (issues_url full_name username) = some resp)
    (hst : resp.status_code = 200)
    (hbody : resp.body = some (Json.arr items))
    (hflag : pget params "issues" true = true)
    (h : process_repo client full_name username params = .ok r) :
    r.issues = (items.countP notPRB : Int) := by
  unfold process_repo at h
  rw [hflag] at h
  obtain ⟨c, hcB, h2⟩ := bindOk h
  rw [if_pos rfl] at h2
  obtain ⟨i, hiB, h3⟩ := bindOk h2
  obtain ⟨ij, hfetch, h4⟩ := bindOk hiB
  obtain ⟨iss, hiter, h5⟩ := bindOk h4
  have hfe : fetch_json_with_client client (issues_url full_name username) =
      .ok (Json.arr items) := by
    unfold fetch_json_with_client
    rw [hresp]
    simp [hst, hbody]
  rw [hfe] at hfetch
  obtain rfl : Json.arr items = ij := Except.ok.inj hfetch
  have hiss : iss = items := by
    have hok : Except.ok items = Except.ok iss := hiter
    exact (Except.ok.inj hok).symm
  rw [hiss] at h5
  have hi := countNonPR_from items 0 i h5
  obtain ⟨p, hpB, h6⟩ := bindOk h3
  have hr : Except.ok (⟨c.1, i, p, c.2.1, c.2.2⟩ : RepoResult) = Except.ok r := h6
  rw [← Except.ok.inj hr]
  show i = (items.countP notPRB : Int)
  simpa using hi

/-- Feature selection used to witness C5: only the issues branch enabled. -/
def paramsC5 : Params := [("commits", false), ("pulls", false)]

/-- Client used to witness C5: the issues endpoint returns 2 items, one
carrying a `pull_request` marker. -/
def clientC5 : Client := fun url =>
  if url = issues_url "OrgW/r" "alice" then
    some ⟨200, "", some (Json.arr [Json.obj [("pull_request", Json.null)], Json.obj []])⟩
  else none

/-- C5 at a concrete run: of 2 returned items exactly one carries a
pull-request marker, and the issues count is 1. -/
theorem c5_issues_count_excludes_pr_marked_witness :
    (⟨0, 1, 0, 0, 0⟩ : RepoResult).issues =
      (([Json.obj [("pull_request", Json.null)], Json.obj []].countP notPRB : Nat) : Int) ∧
    [Json.obj [("pull_request", Json.null)], Json.obj []].countP notPRB = 1 :=
  ⟨c5_issues_count_excludes_pr_marked clientC5 "OrgW/r" "alice" paramsC5
    ⟨0, 1, 0, 0, 0⟩
    ⟨200, "", some (Json.arr [Json.obj [("pull_request", Json.null)], Json.obj []])⟩
    [Json.obj [("pull_request", Json.null)], Json.obj []] rfl rfl rfl rfl rfl, rfl⟩

/-! ## C6 -/

theorem addStats_empty (acc : Int × Int) : addStats acc (Json.obj []) = .ok acc := by
  simp [addStats, Json.isObj, pyToInt, Bind.bind, Except.bind, Pure.pure, Except.pure]

theorem foldlM_addStats_skip (post : List Json) :
    ∀ (pre : List Json) (acc : Int × Int),
      List.foldlM addStats acc (pre ++ Json.obj [] :: post) =
        List.foldlM addStats acc (pre ++ post) := by
  intro pre
  induction pre with
  | nil =>
    intro acc
    rw [List.nil_append, List.nil_append, List.foldlM_cons, addStats_empty]
    rfl
  | cons x xs ih =>
    intro acc
    rw [List.cons_append, List.cons_append, List.foldlM_cons, List.foldlM_cons]
    cases addStats acc x with
    | ok a => simp [Bind.bind, Except.bind, ih]
    | error e => rfl

/-- C6: a failing commit-detail fetch is absorbed inside the aggregator —
`get_commit_stats` yields the empty dict, the empty dict contributes zero
additions and deletions to the stats fold, and the repository still
succeeds with that commit counted in the commits count. -/
theorem c6_commit_stat_failure_contributes_zero (client : Client) (url : String)
    (pre post : List Json) (client2 : Client) (full_name username : String)
    (params : Params) (r : RepoResult) (items : List Json) (resp : HttpResponse)
    (hfail : client url = none ∨ ∃ resp2, client url = some resp2 ∧ resp2.body = none)
    (hresp : client2 (commits_url full_name username) = some resp)
    (hst : resp.status_code = 200)
    (hbody : resp.body = some (Json.arr items))
    (hflag : pget params "commits" true = true)
    (hok : process_repo client2 full_name username params = .ok r) :
    get_commit_stats client url = Json.obj [] ∧
    sumStats (pre ++ Json.obj [] :: post) = sumStats (pre ++ post) ∧
    r.commits = (items.length : Int) := by
  refine ⟨?_, foldlM_addStats_skip post pre (0, 0), ?_⟩
  · rcases hfail with hnone | ⟨resp2, hsome, hb⟩
    · simp [get_commit_stats, hnone]
    · simp [get_commit_stats, hsome, hb]
  · unfold process_repo at hok
    rw [hflag] at hok
    obtain ⟨c, hcB, h2⟩ := bindOk hok
    rw [if_pos rfl] at hcB
    obtain ⟨cj, hfetch, h3⟩ := bindOk hcB
    obtain ⟨commits, hiter, h4⟩ := bindOk h3
    obtain ⟨urls, hurls, h5⟩ := bindOk h4
    obtain ⟨ad, had, h6⟩ := bindOk h5
    have hfe : fetch_json_with_client client2 (commits_url full_name username) =
        .ok (Json.arr items) := by
      unfold fetch_json_with_client
      rw [hresp]
      simp [hst, hbody]
    rw [hfe] at hfetch
    obtain rfl : Json.arr items = cj := Except.ok.inj hfetch
    have hcommits : commits = items := by
      have hokc : Except.ok items = Except.ok commits := hiter
      exact (Except.ok.inj hokc).symm
    have hc : Except.ok ((commits.length : Int), ad.1, ad.2) = Except.ok c := h6
    obtain ⟨i, hiB, h7⟩ := bindOk h2
    obtain ⟨p, hpB, h8⟩ := bindOk h7
    have hr : Except.ok (⟨c.1, i, p, c.2.1, c.2.2⟩ : RepoResult) = Except.ok r := h8
    rw [← Except.ok.inj hr]
    show c.1 = (items.length : Int)
    rw [← Except.ok.inj hc, hcommits]

/-- Feature selection used to witness C6: only the commits branch enabled. -/
def paramsC6 : Params := [("issues", false), ("pulls", false)]

/-- Client used to witness C6: one commit whose detail fetch fails at the
transport level; the commits listing itself succeeds. -/
def clientC6 : Client := fun url =>
  if url = commits_url "OrgV/r" "al" then
    some ⟨200, "", some (Json.arr [Json.obj [("sha", Json.str "s1")]])⟩
  else none

/-- C6 at a concrete run: the lone commit's detail fetch fails, yet the
repository result counts 1 commit with zero additions and deletions. -/
theorem c6_commit_stat_failure_contributes_zero_witness :
    get_commit_stats clientC6 (commit_detail_url "OrgV/r" "s1") = Json.obj [] ∧
    sumStats ([] ++ Json.obj [] :: []) = sumStats ([] ++ []) ∧
    (⟨1, 0, 0, 0, 0⟩ : RepoResult).commits =
      (([Json.obj [("sha", Json.str "s1")]].length : Nat) : Int) :=
  c6_commit_stat_failure_contributes_zero clientC6 (commit_detail_url "OrgV/r" "s1")
    [] [] clientC6 "OrgV/r" "al" paramsC6 ⟨1, 0, 0, 0, 0⟩
    [Json.obj [("sha", Json.str "s1")]]
    ⟨200, "", some (Json.arr [Json.obj [("sha", Json.str "s1")]])⟩
    (Or.inl rfl) rfl rfl rfl rfl rfl

/-! ## C9 -/

theorem pget_insert_true (params : Params) (key k : String)
    (hnone : params.lookup key = none) :
    pget ((key, true) :: params) k true = pget params k true := by
  unfold pget
  by_cases hk : k = key
  · subst hk
    simp [List.lookup, hnone]
  · have hbeq : (k == key) = false := beq_eq_false_iff_ne.mpr hk
    simp [List.lookup, hbeq]

/-- C9: a category key absent from the feature-selection mapping is treated
as enabled — inserting that key with value `true` changes neither the
per-repository aggregation nor the whole report. -/
theorem c9_absent_key_defaults_true (client : Client) (full_name username org : String)
    (params : Params) (key : String)
    (hnone : params.lookup key = none) :
    process_repo client full_name username ((key, true) :: params) =
      process_repo client full_name username params ∧
    count_user_contributions client username org ((key, true) :: params) =
      count_user_contributions client username org params := by
  have hproc : ∀ fn, process_repo client fn username ((key, true) :: params) =
      process_repo client fn username params := by
    intro fn
    unfold process_repo
    rw [pget_insert_true params key "commits" hnone,
      pget_insert_true params key "issues" hnone,
      pget_insert_true params key "pulls" hnone]
  refine ⟨hproc full_name, ?_⟩
  unfold count_user_contributions gatheredResults
  simp only [hproc]

/-- Client used to witness C9: no endpoint answers. -/
def clientC9 : Client := fun _ => none

/-- C9 at a concrete run: adding `commits: true` to an empty selection
changes nothing. -/
theorem c9_absent_key_defaults_true_witness :
    process_repo clientC9 "OrgU/r" "al" [("commits", true)] =
      process_repo clientC9 "OrgU/r" "al" [] ∧
    count_user_contributions clientC9 "al" "OrgU" [("commits", true)] =
      count_user_contributions clientC9 "al" "OrgU" [] :=
  c9_absent_key_defaults_true clientC9 "OrgU/r" "al" "OrgU" [] "commits" rfl
